import Mathlib

/-!
Shallow embedding of `homework.py`, a Telegram homework-status bot.

The bot polls an HTTP endpoint, validates the decoded JSON response,
renders each homework record into a message and delivers it at most once
per process lifetime, advancing a watermark timestamp after each
structurally valid response.

Python values flowing through the program are decoded JSON, modelled by
the inductive type `Json`.  Python exceptions are modelled by `PyError`;
the functions that can raise return `Except PyError α`.  The network and
the Telegram transport are modelled as explicit inputs: each poll cycle
receives an `HttpResult` (the outcome of `requests.get`) and a
`deliver` function (the outcome of `bot.send_message` per message text).
-/

/-- A decoded JSON value (the result of `response.json()` in Python).
Python dicts are association lists; lookups take the first matching key. -/
inductive Json where
  | null : Json
  | bool : Bool → Json
  | int : Int → Json
  | str : String → Json
  | arr : List Json → Json
  | obj : List (String × Json) → Json
deriving Repr

/-- Key lookup in a Python dict modelled as an association list. -/
def Json.lookup : List (String × Json) → String → Option Json
  | [], _ => none
  | (k, v) :: rest, key => if k = key then some v else Json.lookup rest key

/-- The Python exceptions the program raises or handles, each carrying its
message string.  `apiError` and `requestError` are the custom `APIError`
and `RequestError` from `exceptions.py`; the spec calls the non-2xx /
undecodable-body cases RequestFailure / MalformedPayload, the
`KeyError` / `TypeError` cases SchemaViolation, and the `ValueError`
case UnknownStatus. -/
inductive PyError where
  | keyError : String → PyError
  | typeError : String → PyError
  | valueError : String → PyError
  | apiError : String → PyError
  | requestError : String → PyError
deriving Repr, DecidableEq

/-- Python `str()` applied to an exception: `str(KeyError(m))` is the
repr of the key, i.e. the message wrapped in single quotes; the other
exception classes print their message verbatim. -/
def pyStrErr : PyError → String
  | PyError.keyError m => "\x27" ++ m ++ "\x27"
  | PyError.typeError m => m
  | PyError.valueError m => m
  | PyError.apiError m => m
  | PyError.requestError m => m

mutual

/-- Python `str()` of a decoded JSON value, as interpolated by f-strings. -/
def pyStr : Json → String
  | Json.null => "None"
  | Json.bool true => "True"
  | Json.bool false => "False"
  | Json.int n => toString n
  | Json.str s => s
  | Json.arr xs => "[" ++ String.intercalate (", ") (pyReprList xs) ++ "]"
  | Json.obj kvs => "\x7b" ++ String.intercalate (", ") (pyReprKVs kvs) ++ "\x7d"

/-- Python `repr()` of a decoded JSON value (used for elements inside
containers; strings gain single quotes). -/
def pyRepr : Json → String
  | Json.str s => "\x27" ++ s ++ "\x27"
  | Json.null => "None"
  | Json.bool true => "True"
  | Json.bool false => "False"
  | Json.int n => toString n
  | Json.arr xs => "[" ++ String.intercalate (", ") (pyReprList xs) ++ "]"
  | Json.obj kvs => "\x7b" ++ String.intercalate (", ") (pyReprKVs kvs) ++ "\x7d"

/-- `repr` of each element of a Python list. -/
def pyReprList : List Json → List String
  | [] => []
  | x :: xs => pyRepr x :: pyReprList xs

/-- `repr` of each key/value pair of a Python dict. -/
def pyReprKVs : List (String × Json) → List String
  | [] => []
  | (k, v) :: kvs => ("\x27" ++ k ++ "\x27: " ++ pyRepr v) :: pyReprKVs kvs

end

/-- `HOMEWORK_VERDICTS`: the static three-entry verdict table. -/
def HOMEWORK_VERDICTS : List (String × String) :=
  [("approved", "Работа проверена: ревьюеру всё понравилось. Ура!"),
   ("reviewing", "Работа взята на проверку ревьюером."),
   ("rejected", "Работа проверена: у ревьюера есть замечания.")]

/-- Lookup in the verdict table. -/
def verdictLookup : List (String × String) → String → Option String
  | [], _ => none
  | (k, v) :: rest, key => if k = key then some v else verdictLookup rest key

/-- Python `status in HOMEWORK_VERDICTS`: dict membership hashes the
candidate, so a list- or dict-valued status raises
`TypeError: unhashable type`; a hashable non-string value (including
`None`) is simply not a key, and a string is a member exactly when the
table maps it.  Returns the looked-up verdict when the test succeeds. -/
def verdictOf (status : Json) : Except PyError (Option String) :=
  match status with
  | Json.str s => Except.ok (verdictLookup HOMEWORK_VERDICTS s)
  | Json.arr _ => Except.error (PyError.typeError ("unhashable type: \x27list\x27"))
  | Json.obj _ => Except.error (PyError.typeError ("unhashable type: \x27dict\x27"))
  | _ => Except.ok none

/-- `RETRY_PERIOD` -/
def RETRY_PERIOD : Nat := 600

/-- The outcome of the `requests.get` call inside `get_api_answer`:
either the transport raised `requests.RequestException`, or an HTTP
response arrived with a status code and a body whose JSON decode either
succeeds (`some`) or raises `ValueError` (`none`). -/
inductive HttpResult where
  | netError : String → HttpResult
  | response : Nat → Option Json → HttpResult
deriving Repr

/-- `check_tokens` reads three environment variables (`os.getenv` yields
`None` when unset); `not value` is true for `None` and for the empty
string. -/
def pyFalsy (v : Option String) : Bool :=
  match v with
  | none => true
  | some s => s == ""

/-- `check_tokens()`: collects the falsy credentials and returns `False`
when any is missing, `True` otherwise. -/
def check_tokens (practicum telegram chat : Option String) : Bool :=
  let tokens := [("PRACTICUM_TOKEN", practicum), ("TELEGRAM_TOKEN", telegram),
                 ("TELEGRAM_CHAT_ID", chat)]
  let missing_tokens := tokens.filter (fun kv => pyFalsy kv.2)
  if missing_tokens.isEmpty then true else false

/-- `send_message(bot, message)`: attempts the Telegram delivery and
swallows any exception (`except Exception`), logging only, so it always
returns normally.  `deliver` is the behaviour of the underlying
`bot.send_message` on this message text. -/
def send_message (deliver : String → Except String Unit) (message : String) :
    Except PyError Unit :=
  match deliver message with
  | Except.ok _ => Except.ok ()
  | Except.error _ => Except.ok ()

/-- `get_api_answer(timestamp)`: one network attempt; a transport
exception becomes `RequestError`, a non-200 status raises `APIError`
carrying the status code, and an undecodable body raises `APIError`
via the `ValueError` handler.  The body is only decoded when the status
is 200, as in the source. -/
def get_api_answer (http : HttpResult) : Except PyError Json :=
  match http with
  | HttpResult.netError msg =>
      Except.error (PyError.requestError ("Ошибка при запросе к API: " ++ msg))
  | HttpResult.response status body =>
      if status ≠ 200 then
        Except.error (PyError.apiError ("Ошибка: API вернул код " ++ toString status))
      else
        match body with
        | some j => Except.ok j
        | none => Except.error (PyError.apiError ("Ошибка при декодировании JSON."))

/-- `check_response(response)`: `TypeError` when the response is not a
dict, `KeyError` when `homeworks` or `current_date` is absent,
`TypeError` when `homeworks` is not a list; otherwise returns the
`homeworks` list. -/
def check_response (response : Json) : Except PyError (List Json) :=
  match response with
  | Json.obj kvs =>
      match Json.lookup kvs ("homeworks"), Json.lookup kvs ("current_date") with
      | some hv, some _ =>
          match hv with
          | Json.arr hws => Except.ok hws
          | _ => Except.error (PyError.typeError ("Ключ `homeworks` должен содержать список."))
      | _, _ => Except.error (PyError.keyError ("Отсутствуют ожидаемые ключи в ответе API."))
  | _ => Except.error (PyError.typeError ("Ответ API не является словарем."))

/-- `parse_status(homework)`: `KeyError` when `homework_name` is absent,
then `homework.get('status')` (defaulting to `None`) is looked up in
`HOMEWORK_VERDICTS` — the membership test itself raises `TypeError` for
an unhashable (list/dict) status, a hashable non-key status raises
`ValueError`, and a key produces the fixed template sentence.  For a
non-dict argument the Python membership test
`'homework_name' not in homework` checks substrings of a string,
elements of a list, and raises `TypeError` otherwise; on a string or
list containing the key the subsequent subscript raises `TypeError`. -/
def parse_status (homework : Json) : Except PyError String :=
  match homework with
  | Json.obj kvs =>
      match Json.lookup kvs ("homework_name") with
      | none =>
          Except.error (PyError.keyError ("Отсутствует ключ `homework_name` в ответе API."))
      | some homework_name =>
          let status := (Json.lookup kvs ("status")).getD Json.null
          match verdictOf status with
          | Except.error e => Except.error e
          | Except.ok none =>
              Except.error (PyError.valueError ("Неожиданный статус: " ++ pyStr status))
          | Except.ok (some verdict) =>
              Except.ok ("Изменился статус проверки работы \"" ++ pyStr homework_name
                ++ "\". " ++ verdict)
  | Json.str s =>
      if (s.splitOn ("homework_name")).length = 1 then
        Except.error (PyError.keyError ("Отсутствует ключ `homework_name` в ответе API."))
      else
        Except.error (PyError.typeError ("string indices must be integers"))
  | Json.arr xs =>
      if xs.any (fun j => match j with | Json.str t => t == "homework_name" | _ => false) then
        Except.error (PyError.typeError ("list indices must be integers or slices, not str"))
      else
        Except.error (PyError.keyError ("Отсутствует ключ `homework_name` в ответе API."))
  | _ =>
      Except.error (PyError.typeError ("argument of type is not iterable"))

/-- The mutable state owned by `main`: the watermark `timestamp` (an int
at startup, thereafter whatever JSON value `current_date` held) and the
`sent_messages` set, modelled as a duplicate-free list in insertion
order. -/
structure LoopState where
  timestamp : Json
  sentMessages : List String
deriving Repr

/-- The observable outcome of one iteration of the `while True` loop:
the state afterwards and the message texts passed to `send_message`
(delivery attempts), in order. -/
structure CycleResult where
  state : LoopState
  sends : List String
deriving Repr

/-- `response['current_date']` as executed in `main` after a successful
`check_response` (the non-dict / missing-key fallbacks are unreachable
there). -/
def jget (j : Json) (key : String) : Json :=
  match j with
  | Json.obj kvs => (Json.lookup kvs key).getD Json.null
  | _ => Json.null

/-- The message rendered by `main`'s two `except` clauses: `APIError`
and `RequestError` are caught by the first clause, every other
exception by the catch-all. -/
def handlerMessage (e : PyError) : String :=
  match e with
  | PyError.apiError _ => "Ошибка при получении данных из API: " ++ pyStrErr e
  | PyError.requestError _ => "Ошибка при получении данных из API: " ++ pyStrErr e
  | _ => "Сбой в работе программы: " ++ pyStrErr e

/-- The `for homework in homeworks` loop of `main`: renders each record,
skips texts already in `sent_messages`, otherwise calls `send_message`
and adds the text to the set.  Returns the new set, the attempted
sends in order, and the exception (if any) that aborted the loop —
from `parse_status`, or from `send_message` in the (never-taken) case
where it propagated an exception before the set was updated. -/
def processHomeworks (deliver : String → Except String Unit) :
    List Json → List String → List String × List String × Option PyError
  | [], sent => (sent, [], none)
  | homework :: rest, sent =>
      match parse_status homework with
      | Except.error e => (sent, [], some e)
      | Except.ok message =>
          if message ∈ sent then
            processHomeworks deliver rest sent
          else
            match send_message deliver message with
            | Except.ok _ =>
                let r := processHomeworks deliver rest (sent ++ [message])
                (r.1, message :: r.2.1, r.2.2)
            | Except.error e => (sent, [message], some e)

/-- One iteration of `main`'s `while True` loop: poll, skip a `None`
response, validate, render/deliver each record, advance the watermark;
any exception is caught by the `except` clauses, which leave the
watermark alone and attempt exactly one error notification.  Sleeping
(`time.sleep(RETRY_PERIOD)` on every path) has no modelled effect. -/
def mainCycle (deliver : String → Except String Unit) (st : LoopState)
    (http : HttpResult) : CycleResult :=
  match get_api_answer http with
  | Except.error e => { state := st, sends := [handlerMessage e] }
  | Except.ok response =>
      match response with
      | Json.null => { state := st, sends := [] }
      | _ =>
          match check_response response with
          | Except.error e => { state := st, sends := [handlerMessage e] }
          | Except.ok homeworks =>
              let r := processHomeworks deliver homeworks st.sentMessages
              match r.2.2 with
              | some e =>
                  { state := { timestamp := st.timestamp, sentMessages := r.1 },
                    sends := r.2.1 ++ [handlerMessage e] }
              | none =>
                  { state := { timestamp := jget response ("current_date"),
                               sentMessages := r.1 },
                    sends := r.2.1 }

/-- The `while True` loop of `main`, unrolled over a finite trace of
network outcomes, one per cycle; every cycle returns normally, so the
loop never terminates on its own.  Returns the final state and all
delivery attempts in order. -/
def runLoop (deliver : String → Except String Unit) :
    LoopState → List HttpResult → LoopState × List String
  | st, [] => (st, [])
  | st, http :: rest =>
      let c := mainCycle deliver st http
      let l := runLoop deliver c.state rest
      (l.1, c.sends ++ l.2)

/-- `main()`: when `check_tokens()` fails it returns at once — no bot,
no polling, no notification (`none`); otherwise it creates the bot,
initialises the watermark to the current time `t0` and the sent set to
empty, and runs the loop. -/
def mainRun (practicum telegram chat : Option String) (t0 : Int)
    (deliver : String → Except String Unit) (trace : List HttpResult) :
    Option (LoopState × List String) :=
  if check_tokens practicum telegram chat then
    some (runLoop deliver { timestamp := Json.int t0, sentMessages := [] } trace)
  else
    none

/-- The rendered text of a record whose `parse_status` succeeds
(arbitrary when it fails); used to state counting properties. -/
def renderOk (homework : Json) : String :=
  match parse_status homework with
  | Except.ok m => m
  | Except.error _ => ""

/-- A `deliver` behaviour whose every attempt succeeds. -/
def okDeliver : String → Except String Unit := fun _ => Except.ok ()

/-- A `deliver` behaviour whose every attempt raises. -/
def failDeliver : String → Except String Unit := fun _ => Except.error ("network down")

/-- A concrete record from the spec's scenarios: HW1, approved. -/
def hwHW1 : Json :=
  Json.obj [("homework_name", Json.str ("HW1")), ("status", Json.str ("approved"))]

/-- A concrete record with an unrecognized status. -/
def hwBad : Json :=
  Json.obj [("homework_name", Json.str ("HW2")), ("status", Json.str ("weird"))]

/-- The message `parse_status` renders for `hwHW1`. -/
def msgHW1 : String :=
  "Изменился статус проверки работы \"HW1\". Работа проверена: ревьюеру всё понравилось. Ура!"

/-- The spec's empty-homeworks scenario response. -/
def respEmpty : Json :=
  Json.obj [("homeworks", Json.arr []), ("current_date", Json.int 1700000100)]

/-- A response whose batch has one good record followed by one bad one. -/
def respMixed : Json :=
  Json.obj [("homeworks", Json.arr [hwHW1, hwBad]), ("current_date", Json.int 1700000200)]

/-- The spec's one-homework scenario response. -/
def respHW1 : Json :=
  Json.obj [("homeworks", Json.arr [hwHW1]), ("current_date", Json.int 1700000000)]

/-- The spec's four malformation conditions for `validate` (claim C2):
not a mapping, missing `homeworks`, missing `current_date`, or a
`homeworks` value that is not a sequence.  Stated from the spec's words,
to be compared with `check_response`. -/
def malformedShape (response : Json) : Bool :=
  match response with
  | Json.obj kvs =>
      (Json.lookup kvs ("homeworks")).isNone
        || (Json.lookup kvs ("current_date")).isNone
        || (match Json.lookup kvs ("homeworks") with
            | some (Json.arr _) => false
            | _ => true)
  | _ => true

/-- The spec's SchemaViolation category: the `KeyError` / `TypeError`
exceptions (missing or wrong-typed keys). -/
def isSchemaViolation : PyError → Bool
  | PyError.keyError _ => true
  | PyError.typeError _ => true
  | _ => false

lemma send_message_ok (d : String → Except String Unit) (m : String) :
    send_message d m = Except.ok () := by
  unfold send_message
  cases d m <;> rfl

lemma processHomeworks_sent_append (d : String → Except String Unit) (hws : List Json) :
    ∀ sent, (processHomeworks d hws sent).1 = sent ++ (processHomeworks d hws sent).2.1 := by
  induction hws with
  | nil => intro sent; simp [processHomeworks]
  | cons hw rest ih =>
      intro sent
      simp only [processHomeworks]
      cases hp : parse_status hw with
      | error e => simp
      | ok m =>
          by_cases hmem : m ∈ sent
          · simpa [hmem] using ih sent
          · simp only [hmem, if_false, send_message_ok]
            have := ih (sent ++ [m])
            simp only at this ⊢
            rw [this]
            simp

lemma processHomeworks_fresh (d : String → Except String Unit) (hws : List Json) :
    ∀ sent, ∀ m ∈ (processHomeworks d hws sent).2.1, m ∉ sent := by
  induction hws with
  | nil => intro sent m hm; simp [processHomeworks] at hm
  | cons hw rest ih =>
      intro sent m hm
      simp only [processHomeworks] at hm
      cases hp : parse_status hw with
      | error e => rw [hp] at hm; simp at hm
      | ok msg =>
          rw [hp] at hm
          by_cases hmem : msg ∈ sent
          · simp only [hmem, if_true] at hm
            exact ih sent m hm
          · simp only [hmem, if_false, send_message_ok] at hm
            simp only [List.mem_cons] at hm
            rcases hm with rfl | hm
            · exact hmem
            · have := ih (sent ++ [msg]) m hm
              intro hc
              exact this (List.mem_append_left _ hc)

lemma processHomeworks_nodup (d : String → Except String Unit) (hws : List Json) :
    ∀ sent, (processHomeworks d hws sent).2.1.Nodup := by
  induction hws with
  | nil => intro sent; simp [processHomeworks]
  | cons hw rest ih =>
      intro sent
      simp only [processHomeworks]
      cases hp : parse_status hw with
      | error e => simp
      | ok msg =>
          by_cases hmem : msg ∈ sent
          · simpa [hmem] using ih sent
          · simp only [hmem, if_false, send_message_ok]
            refine List.nodup_cons.mpr ⟨?_, ih (sent ++ [msg])⟩
            intro hc
            exact processHomeworks_fresh d rest (sent ++ [msg]) msg hc
              (List.mem_append_right _ (List.mem_singleton.mpr rfl))

lemma processHomeworks_len (d : String → Except String Unit) (hws : List Json) :
    ∀ sent, (processHomeworks d hws sent).2.1.length ≤ hws.length := by
  induction hws with
  | nil => intro sent; simp [processHomeworks]
  | cons hw rest ih =>
      intro sent
      simp only [processHomeworks]
      cases hp : parse_status hw with
      | error e => simp
      | ok msg =>
          by_cases hmem : msg ∈ sent
          · simp only [hmem, if_true]
            exact le_trans (ih sent) (Nat.le_succ _)
          · simp only [hmem, if_false, send_message_ok, List.length_cons]
            exact Nat.succ_le_succ (ih (sent ++ [msg]))

lemma processHomeworks_err_none (d : String → Except String Unit) (hws : List Json) :
    ∀ sent, (∀ hw ∈ hws, (parse_status hw).isOk = true) →
      (processHomeworks d hws sent).2.2 = none := by
  induction hws with
  | nil => intro sent _; simp [processHomeworks]
  | cons hw rest ih =>
      intro sent hok
      simp only [processHomeworks]
      cases hp : parse_status hw with
      | error e =>
          have := hok hw (List.mem_cons_self hw rest)
          rw [hp] at this
          simp [Except.isOk, Except.toBool] at this
      | ok msg =>
          have hrest : ∀ h ∈ rest, (parse_status h).isOk = true :=
            fun h hh => hok h (List.mem_cons_of_mem hw hh)
          by_cases hmem : msg ∈ sent
          · simpa [hmem] using ih sent hrest
          · simp only [hmem, if_false, send_message_ok]
            exact ih (sent ++ [msg]) hrest

lemma processHomeworks_exact (d : String → Except String Unit) (hws : List Json) :
    ∀ sent, (∀ hw ∈ hws, (parse_status hw).isOk = true) →
      (hws.map renderOk).Nodup → (∀ m ∈ hws.map renderOk, m ∉ sent) →
      (processHomeworks d hws sent).2.1 = hws.map renderOk := by
  induction hws with
  | nil => intro sent _ _ _; simp [processHomeworks]
  | cons hw rest ih =>
      intro sent hok hnd hfresh
      simp only [processHomeworks]
      cases hp : parse_status hw with
      | error e =>
          have := hok hw (List.mem_cons_self hw rest)
          rw [hp] at this
          simp [Except.isOk, Except.toBool] at this
      | ok msg =>
          have hrender : renderOk hw = msg := by simp [renderOk, hp]
          have hmem : msg ∉ sent := by
            have := hfresh (renderOk hw) (by simp)
            rwa [hrender] at this
          simp only [hmem, if_false, send_message_ok]
          have hrest : ∀ h ∈ rest, (parse_status h).isOk = true :=
            fun h hh => hok h (List.mem_cons_of_mem hw hh)
          have hnd' : (rest.map renderOk).Nodup := by
            simp only [List.map_cons, List.nodup_cons] at hnd
            exact hnd.2
          have hfresh' : ∀ m ∈ rest.map renderOk, m ∉ sent ++ [msg] := by
            intro m hm hc
            rcases List.mem_append.mp hc with h1 | h1
            · exact hfresh m (List.mem_cons_of_mem _ hm) h1
            · have hm2 : m = msg := List.mem_singleton.mp h1
              simp only [List.map_cons, List.nodup_cons] at hnd
              rw [← hrender] at hm2
              exact hnd.1 (hm2 ▸ hm)
          have := ih (sent ++ [msg]) hrest hnd' hfresh'
          simp only [List.map_cons, hrender]
          rw [this]

lemma processHomeworks_append_err (d : String → Except String Unit) (good : List Json)
    (bad : Json) (rest : List Json) (e : PyError) (hbad : parse_status bad = Except.error e) :
    ∀ sent, (∀ hw ∈ good, (parse_status hw).isOk = true) →
      processHomeworks d (good ++ bad :: rest) sent =
        ((processHomeworks d good sent).1, (processHomeworks d good sent).2.1, some e) := by
  induction good with
  | nil =>
      intro sent _
      simp [processHomeworks, hbad]
  | cons g good' ih =>
      intro sent hok
      simp only [List.cons_append, processHomeworks]
      cases hp : parse_status g with
      | error e' =>
          have := hok g (List.mem_cons_self g good')
          rw [hp] at this
          simp [Except.isOk, Except.toBool] at this
      | ok msg =>
          have hrest : ∀ h ∈ good', (parse_status h).isOk = true :=
            fun h hh => hok h (List.mem_cons_of_mem g hh)
          by_cases hmem : msg ∈ sent
          · simpa [hmem] using ih sent hrest
          · simp only [hmem, if_false, send_message_ok]
            simp only [List.append_eq]
            rw [ih (sent ++ [msg]) hrest]

lemma check_response_ok_shape (response : Json) (hws : List Json)
    (h : check_response response = Except.ok hws) :
    ∃ kvs, response = Json.obj kvs ∧
      Json.lookup kvs ("homeworks") = some (Json.arr hws) ∧
      ∃ v, Json.lookup kvs ("current_date") = some v := by
  cases response with
  | obj kvs =>
      simp only [check_response] at h
      rcases h1 : Json.lookup kvs ("homeworks") with _ | hv
      · rw [h1] at h
        rcases h2 : Json.lookup kvs ("current_date") with _ | v <;> rw [h2] at h <;> simp at h
      · rw [h1] at h
        rcases h2 : Json.lookup kvs ("current_date") with _ | v
        · rw [h2] at h; simp at h
        · rw [h2] at h
          cases hv <;> simp at h
          case arr l => exact ⟨kvs, rfl, by rw [h1, h], v, h2⟩
  | null => simp [check_response] at h
  | bool b => simp [check_response] at h
  | int n => simp [check_response] at h
  | str s => simp [check_response] at h
  | arr xs => simp [check_response] at h

lemma mainCycle_valid (d : String → Except String Unit) (st : LoopState) (http : HttpResult)
    (kvs : List (String × Json)) (hws : List Json)
    (h1 : get_api_answer http = Except.ok (Json.obj kvs))
    (h3 : check_response (Json.obj kvs) = Except.ok hws) :
    mainCycle d st http =
      match (processHomeworks d hws st.sentMessages).2.2 with
      | some e =>
          { state := { timestamp := st.timestamp,
                       sentMessages := (processHomeworks d hws st.sentMessages).1 },
            sends := (processHomeworks d hws st.sentMessages).2.1 ++ [handlerMessage e] }
      | none =>
          { state := { timestamp := jget (Json.obj kvs) ("current_date"),
                       sentMessages := (processHomeworks d hws st.sentMessages).1 },
            sends := (processHomeworks d hws st.sentMessages).2.1 } := by
  simp only [mainCycle, h1, h3]

lemma check_tokens_eq (practicum telegram chat : Option String) :
    check_tokens practicum telegram chat =
      (!pyFalsy practicum && !pyFalsy telegram && !pyFalsy chat) := by
  cases hp : pyFalsy practicum <;> cases ht : pyFalsy telegram <;> cases hc : pyFalsy chat <;>
    simp [check_tokens, List.filter, hp, ht, hc]

/-- C1 (amended): for a record with a name field and a status that is a
key of the three-entry verdict table, `parse_status` returns the fixed
template sentence with the record's name and the verdict text from the
table; without a name field it raises `KeyError` (the spec's
SchemaViolation); with any other hashable status value — absent/null,
boolean, number, or an unrecognized string, i.e. whenever the
membership test returns false — it raises `ValueError` (the spec's
UnknownStatus); with a list- or dict-valued status the membership test
itself raises `TypeError` (unhashable type), not `ValueError`. -/
theorem c1_render_correct (kvs : List (String × Json)) :
    HOMEWORK_VERDICTS.length = 3 ∧
    (∀ nameVal s verdict,
       Json.lookup kvs ("homework_name") = some nameVal →
       Json.lookup kvs ("status") = some (Json.str s) →
       verdictLookup HOMEWORK_VERDICTS s = some verdict →
       parse_status (Json.obj kvs) =
         Except.ok ("Изменился статус проверки работы \"" ++ pyStr nameVal
           ++ "\". " ++ verdict)) ∧
    (Json.lookup kvs ("homework_name") = none →
       parse_status (Json.obj kvs) =
         Except.error (PyError.keyError ("Отсутствует ключ `homework_name` в ответе API."))) ∧
    (∀ nameVal,
       Json.lookup kvs ("homework_name") = some nameVal →
       verdictOf ((Json.lookup kvs ("status")).getD Json.null) = Except.ok none →
       parse_status (Json.obj kvs) =
         Except.error (PyError.valueError ("Неожиданный статус: "
           ++ pyStr ((Json.lookup kvs ("status")).getD Json.null)))) ∧
    (∀ nameVal xs,
       Json.lookup kvs ("homework_name") = some nameVal →
       Json.lookup kvs ("status") = some (Json.arr xs) →
       parse_status (Json.obj kvs) =
         Except.error (PyError.typeError ("unhashable type: \x27list\x27"))) ∧
    (∀ nameVal o,
       Json.lookup kvs ("homework_name") = some nameVal →
       Json.lookup kvs ("status") = some (Json.obj o) →
       parse_status (Json.obj kvs) =
         Except.error (PyError.typeError ("unhashable type: \x27dict\x27"))) := by
  refine ⟨rfl, ?_, ?_, ?_, ?_, ?_⟩
  · intro nameVal s verdict hn hs hv
    simp [parse_status, hn, hs, verdictOf, hv]
  · intro hn
    simp [parse_status, hn]
  · intro nameVal hn hv
    simp [parse_status, hn, hv]
  · intro nameVal xs hn hs
    simp [parse_status, hn, hs, verdictOf]
  · intro nameVal o hn hs
    simp [parse_status, hn, hs, verdictOf]

/-- C1 counterexample to the claim as frozen: a record with a name field
and a list-valued status fails with `TypeError` (unhashable type) — the
spec's SchemaViolation bucket — not with the `ValueError` the claim's
UnknownStatus case asserts for every unrecognized status value. -/
theorem c1_render_refuted :
    parse_status (Json.obj [("homework_name", Json.str ("HW")),
        ("status", Json.arr [])]) =
      Except.error (PyError.typeError ("unhashable type: \x27list\x27")) := rfl

/-- C1 witness: the spec's own scenario, a record named HW1 with status
approved. -/
theorem c1_render_correct_case :
    parse_status (Json.obj [("homework_name", Json.str ("HW1")),
        ("status", Json.str ("approved"))]) =
      Except.ok ("Изменился статус проверки работы \"HW1\". "
        ++ "Работа проверена: ревьюеру всё понравилось. Ура!") :=
  (c1_render_correct _).2.1 (Json.str ("HW1")) ("approved")
    ("Работа проверена: ревьюеру всё понравилось. Ура!") rfl rfl rfl

/-- C2: `check_response` fails exactly on the spec's four malformation
conditions, always with a `KeyError` or `TypeError` (the spec's
SchemaViolation), and otherwise returns the `homeworks` list
unchanged. -/
theorem c2_validate_correct (response : Json) :
    ((check_response response).isOk = false ↔ malformedShape response = true) ∧
    (∀ e, check_response response = Except.error e → isSchemaViolation e = true) ∧
    (∀ kvs hws, response = Json.obj kvs →
       Json.lookup kvs ("homeworks") = some (Json.arr hws) →
       (Json.lookup kvs ("current_date")).isSome = true →
       check_response response = Except.ok hws) := by
  cases response with
  | obj kvs =>
      rcases h1 : Json.lookup kvs ("homeworks") with _ | hv
      · refine ⟨by simp [check_response, malformedShape, h1, Except.isOk, Except.toBool],
          fun e he => ?_, fun kvs' hws heq hlook _ => ?_⟩
        · simp only [check_response] at he
          rw [h1] at he
          simp at he
          subst he
          rfl
        · cases heq
          rw [h1] at hlook
          simp at hlook
      · rcases h2 : Json.lookup kvs ("current_date") with _ | v
        · refine ⟨by simp [check_response, malformedShape, h1, h2, Except.isOk, Except.toBool],
            fun e he => ?_, fun kvs' hws heq hlook hdate => ?_⟩
          · simp only [check_response] at he
            rw [h1, h2] at he
            simp at he
            subst he
            rfl
          · cases heq
            rw [h2] at hdate
            simp at hdate
        · cases hv with
          | arr l =>
              refine ⟨by simp [check_response, malformedShape, h1, h2, Except.isOk, Except.toBool],
                fun e he => ?_, fun kvs' hws heq hlook _ => ?_⟩
              · simp only [check_response] at he
                rw [h1, h2] at he
                simp at he
              · cases heq
                rw [h1] at hlook
                simp only [Option.some.injEq, Json.arr.injEq] at hlook
                subst hlook
                simp [check_response, h1, h2]
          | null =>
              refine ⟨by simp [check_response, malformedShape, h1, h2, Except.isOk, Except.toBool],
                fun e he => ?_, fun kvs' hws heq hlook _ => ?_⟩
              · simp only [check_response] at he
                rw [h1, h2] at he
                simp at he
                subst he
                rfl
              · cases heq
                rw [h1] at hlook
                simp at hlook
          | bool b =>
              refine ⟨by simp [check_response, malformedShape, h1, h2, Except.isOk, Except.toBool],
                fun e he => ?_, fun kvs' hws heq hlook _ => ?_⟩
              · simp only [check_response] at he
                rw [h1, h2] at he
                simp at he
                subst he
                rfl
              · cases heq
                rw [h1] at hlook
                simp at hlook
          | int n =>
              refine ⟨by simp [check_response, malformedShape, h1, h2, Except.isOk, Except.toBool],
                fun e he => ?_, fun kvs' hws heq hlook _ => ?_⟩
              · simp only [check_response] at he
                rw [h1, h2] at he
                simp at he
                subst he
                rfl
              · cases heq
                rw [h1] at hlook
                simp at hlook
          | str s =>
              refine ⟨by simp [check_response, malformedShape, h1, h2, Except.isOk, Except.toBool],
                fun e he => ?_, fun kvs' hws heq hlook _ => ?_⟩
              · simp only [check_response] at he
                rw [h1, h2] at he
                simp at he
                subst he
                rfl
              · cases heq
                rw [h1] at hlook
                simp at hlook
          | obj o =>
              refine ⟨by simp [check_response, malformedShape, h1, h2, Except.isOk, Except.toBool],
                fun e he => ?_, fun kvs' hws heq hlook _ => ?_⟩
              · simp only [check_response] at he
                rw [h1, h2] at he
                simp at he
                subst he
                rfl
              · cases heq
                rw [h1] at hlook
                simp at hlook
  | null =>
      refine ⟨by simp [check_response, malformedShape, Except.isOk, Except.toBool],
        fun e he => ?_, fun kvs hws heq _ _ => by cases heq⟩
      simp [check_response] at he
      subst he
      rfl
  | bool b =>
      refine ⟨by simp [check_response, malformedShape, Except.isOk, Except.toBool],
        fun e he => ?_, fun kvs hws heq _ _ => by cases heq⟩
      simp [check_response] at he
      subst he
      rfl
  | int n =>
      refine ⟨by simp [check_response, malformedShape, Except.isOk, Except.toBool],
        fun e he => ?_, fun kvs hws heq _ _ => by cases heq⟩
      simp [check_response] at he
      subst he
      rfl
  | str s =>
      refine ⟨by simp [check_response, malformedShape, Except.isOk, Except.toBool],
        fun e he => ?_, fun kvs hws heq _ _ => by cases heq⟩
      simp [check_response] at he
      subst he
      rfl
  | arr xs =>
      refine ⟨by simp [check_response, malformedShape, Except.isOk, Except.toBool],
        fun e he => ?_, fun kvs hws heq _ _ => by cases heq⟩
      simp [check_response] at he
      subst he
      rfl

/-- C2 witness: a well-formed response with an empty homeworks list. -/
theorem c2_validate_correct_case :
    check_response (Json.obj [("homeworks", Json.arr []),
        ("current_date", Json.int 1700000100)]) = Except.ok [] :=
  (c2_validate_correct _).2.2 _ [] rfl rfl rfl

/-- C6: an HTTP response makes `get_api_answer` succeed with the decoded
body exactly when the status is 200 and the body decodes; any other
status raises the `APIError` carrying the status code (the spec's
RequestFailure for a non-success status). -/
theorem c6_poll_status (status : Nat) (body : Option Json) :
    (∀ j, get_api_answer (HttpResult.response status body) = Except.ok j ↔
       (status = 200 ∧ body = some j)) ∧
    (status ≠ 200 →
       get_api_answer (HttpResult.response status body) =
         Except.error (PyError.apiError ("Ошибка: API вернул код " ++ toString status))) := by
  constructor
  · intro j
    by_cases h : status = 200
    · subst h
      cases body <;> simp [get_api_answer]
    · simp [get_api_answer, h]
  · intro h
    simp [get_api_answer, h]

/-- C6 witness: a decoded 200 response and a 404 response. -/
theorem c6_poll_status_case :
    (get_api_answer (HttpResult.response 200 (some (Json.int 1))) = Except.ok (Json.int 1) ↔
       ((200 : Nat) = 200 ∧ some (Json.int 1) = some (Json.int 1))) ∧
    get_api_answer (HttpResult.response 404 none) =
      Except.error (PyError.apiError ("Ошибка: API вернул код " ++ toString (404 : Nat))) :=
  ⟨(c6_poll_status 200 (some (Json.int 1))).1 (Json.int 1),
   (c6_poll_status 404 none).2 (by decide)⟩

/-- C7: a missing or empty credential means `main` returns before any
polling — the result carries no cycles and no delivery attempts; with
all three credentials non-empty the loop runs. -/
theorem c7_token_gate (practicum telegram chat : Option String) (t0 : Int)
    (d : String → Except String Unit) (trace : List HttpResult) :
    ((pyFalsy practicum = true ∨ pyFalsy telegram = true ∨ pyFalsy chat = true) →
       mainRun practicum telegram chat t0 d trace = none) ∧
    (pyFalsy practicum = false → pyFalsy telegram = false → pyFalsy chat = false →
       mainRun practicum telegram chat t0 d trace =
         some (runLoop d { timestamp := Json.int t0, sentMessages := [] } trace)) := by
  constructor
  · intro h
    have hct : check_tokens practicum telegram chat = false := by
      rw [check_tokens_eq]
      rcases h with h | h | h <;> simp [h]
    simp [mainRun, hct]
  · intro h1 h2 h3
    have hct : check_tokens practicum telegram chat = true := by
      rw [check_tokens_eq, h1, h2, h3]
      rfl
    simp [mainRun, hct]

/-- C7 witness: a missing token blocks the loop; three non-empty tokens
start it. -/
theorem c7_token_gate_case :
    mainRun none (some ("T")) (some ("C")) 0 okDeliver [] = none ∧
    mainRun (some ("P")) (some ("T")) (some ("C")) 0 okDeliver [] =
      some (runLoop okDeliver { timestamp := Json.int 0, sentMessages := [] } []) :=
  ⟨(c7_token_gate none (some ("T")) (some ("C")) 0 okDeliver []).1 (Or.inl rfl),
   (c7_token_gate (some ("P")) (some ("T")) (some ("C")) 0 okDeliver []).2 rfl rfl rfl⟩

/-- C8: a record with a name field but no status field at all is
rejected by `parse_status` with the unknown-status `ValueError` (the
absent status reads as `None`, never a table key), not with the
missing-field `KeyError`. -/
theorem c8_missing_status (kvs : List (String × Json)) (nameVal : Json)
    (hname : Json.lookup kvs ("homework_name") = some nameVal)
    (hstat : Json.lookup kvs ("status") = none) :
    parse_status (Json.obj kvs) =
      Except.error (PyError.valueError ("Неожиданный статус: None")) := by
  simp [parse_status, hname, hstat, verdictOf, pyStr]

/-- C8 witness: a record carrying only a name. -/
theorem c8_missing_status_case :
    parse_status (Json.obj [("homework_name", Json.str ("HW1"))]) =
      Except.error (PyError.valueError ("Неожиданный статус: None")) :=
  c8_missing_status _ (Json.str ("HW1")) rfl rfl

/-- C3: a cycle that fails — in the poller (`APIError` / `RequestError`,
the spec's RequestFailure / MalformedPayload) or in validation
(`SchemaViolation`) — leaves the whole loop state, watermark included,
unchanged, attempts exactly one error notification, and the loop goes on
to the next cycle from the unchanged state instead of terminating. -/
theorem c3_cycle_failure (d : String → Except String Unit) (st : LoopState)
    (http : HttpResult)
    (h : (∃ e, get_api_answer http = Except.error e) ∨
         (∃ resp e, get_api_answer http = Except.ok resp ∧ resp ≠ Json.null ∧
            check_response resp = Except.error e)) :
    (mainCycle d st http).state = st ∧
    (mainCycle d st http).sends.length = 1 ∧
    (∀ rest, (runLoop d st (http :: rest)).1 = (runLoop d st rest).1) := by
  rcases h with ⟨e, he⟩ | ⟨resp, e, hok, hnull, herr⟩
  · exact ⟨by simp [mainCycle, he], by simp [mainCycle, he],
      fun rest => by simp [runLoop, mainCycle, he]⟩
  · cases resp
    case null => exact absurd rfl hnull
    all_goals exact ⟨by simp [mainCycle, hok, herr], by simp [mainCycle, hok, herr],
      fun rest => by simp [runLoop, mainCycle, hok, herr]⟩

/-- C3 witness: a 500 response against a fresh state, with an empty
remaining trace. -/
theorem c3_cycle_failure_case :
    (mainCycle okDeliver { timestamp := Json.int 0, sentMessages := [] }
        (HttpResult.response 500 none)).state =
      { timestamp := Json.int 0, sentMessages := [] } ∧
    (mainCycle okDeliver { timestamp := Json.int 0, sentMessages := [] }
        (HttpResult.response 500 none)).sends.length = 1 ∧
    (runLoop okDeliver { timestamp := Json.int 0, sentMessages := [] }
        [HttpResult.response 500 none]).1 =
      (runLoop okDeliver { timestamp := Json.int 0, sentMessages := [] } []).1 :=
  ⟨(c3_cycle_failure okDeliver { timestamp := Json.int 0, sentMessages := [] }
      (HttpResult.response 500 none) (Or.inl ⟨_, rfl⟩)).1,
   (c3_cycle_failure okDeliver { timestamp := Json.int 0, sentMessages := [] }
      (HttpResult.response 500 none) (Or.inl ⟨_, rfl⟩)).2.1,
   (c3_cycle_failure okDeliver { timestamp := Json.int 0, sentMessages := [] }
      (HttpResult.response 500 none) (Or.inl ⟨_, rfl⟩)).2.2 []⟩

/-- C4: on a well-formed response whose N records all render, the cycle
attempts at most N notifications, exactly N when the rendered texts are
pairwise distinct and none was sent before; the sent set becomes the old
set plus exactly the attempted texts (so it only grows), and no
attempted text was already in the set — a given text is delivered at
most once per process lifetime. -/
theorem c4_notification_count (d : String → Except String Unit) (st : LoopState)
    (http : HttpResult) (resp : Json) (hws : List Json)
    (h1 : get_api_answer http = Except.ok resp)
    (h3 : check_response resp = Except.ok hws)
    (hok : ∀ hw ∈ hws, (parse_status hw).isOk = true) :
    (mainCycle d st http).sends.length ≤ hws.length ∧
    ((hws.map renderOk).Nodup → (∀ m ∈ hws.map renderOk, m ∉ st.sentMessages) →
       (mainCycle d st http).sends.length = hws.length) ∧
    (mainCycle d st http).state.sentMessages =
      st.sentMessages ++ (mainCycle d st http).sends ∧
    (∀ m ∈ st.sentMessages, m ∈ (mainCycle d st http).state.sentMessages) ∧
    (mainCycle d st http).sends.Nodup ∧
    (∀ m ∈ (mainCycle d st http).sends, m ∉ st.sentMessages) := by
  rcases check_response_ok_shape resp hws h3 with ⟨kvs, rfl, hlook, v, hv⟩
  have hcyc : mainCycle d st http =
      { state := { timestamp := jget (Json.obj kvs) ("current_date"),
                   sentMessages := (processHomeworks d hws st.sentMessages).1 },
        sends := (processHomeworks d hws st.sentMessages).2.1 } := by
    rw [mainCycle_valid d st http kvs hws h1 h3,
      processHomeworks_err_none d hws st.sentMessages hok]
  rw [hcyc]
  refine ⟨processHomeworks_len d hws st.sentMessages, ?_,
    processHomeworks_sent_append d hws st.sentMessages, ?_,
    processHomeworks_nodup d hws st.sentMessages,
    processHomeworks_fresh d hws st.sentMessages⟩
  · intro hnd hfresh
    rw [processHomeworks_exact d hws st.sentMessages hok hnd hfresh]
    simp
  · intro m hm
    rw [processHomeworks_sent_append d hws st.sentMessages]
    exact List.mem_append_left _ hm

/-- C4 witness: the spec's one-homework scenario against a fresh state:
exactly one notification, and the sent set grows by exactly it. -/
theorem c4_notification_count_case :
    (mainCycle okDeliver { timestamp := Json.int 0, sentMessages := [] }
        (HttpResult.response 200 (some respHW1))).sends.length = [hwHW1].length ∧
    (mainCycle okDeliver { timestamp := Json.int 0, sentMessages := [] }
        (HttpResult.response 200 (some respHW1))).state.sentMessages =
      [] ++ (mainCycle okDeliver { timestamp := Json.int 0, sentMessages := [] }
        (HttpResult.response 200 (some respHW1))).sends :=
  ⟨(c4_notification_count okDeliver { timestamp := Json.int 0, sentMessages := [] }
      (HttpResult.response 200 (some respHW1)) respHW1 [hwHW1] rfl rfl
      (by decide)).2.1 (by decide) (by decide),
   (c4_notification_count okDeliver { timestamp := Json.int 0, sentMessages := [] }
      (HttpResult.response 200 (some respHW1)) respHW1 [hwHW1] rfl rfl
      (by decide)).2.2.1⟩

/-- C5: a well-formed response with an empty homeworks list produces no
delivery attempt, leaves the sent set alone, and still advances the
watermark to the server-supplied `current_date` value. -/
theorem c5_empty_homeworks (d : String → Except String Unit) (st : LoopState)
    (http : HttpResult) (kvs : List (String × Json)) (v : Json)
    (h1 : get_api_answer http = Except.ok (Json.obj kvs))
    (h3 : check_response (Json.obj kvs) = Except.ok [])
    (hv : Json.lookup kvs ("current_date") = some v) :
    (mainCycle d st http).sends = [] ∧
    (mainCycle d st http).state.timestamp = v ∧
    (mainCycle d st http).state.sentMessages = st.sentMessages := by
  have hcyc : mainCycle d st http =
      { state := { timestamp := jget (Json.obj kvs) ("current_date"),
                   sentMessages := (processHomeworks d [] st.sentMessages).1 },
        sends := (processHomeworks d [] st.sentMessages).2.1 } := by
    rw [mainCycle_valid d st http kvs [] h1 h3]
    simp [processHomeworks]
  rw [hcyc]
  refine ⟨rfl, ?_, rfl⟩
  show jget (Json.obj kvs) ("current_date") = v
  simp [jget, hv]

/-- C5 witness: the spec's scenario `homeworks = []`,
`current_date = 1700000100`. -/
theorem c5_empty_homeworks_case :
    (mainCycle okDeliver { timestamp := Json.int 0, sentMessages := [] }
        (HttpResult.response 200 (some respEmpty))).sends = [] ∧
    (mainCycle okDeliver { timestamp := Json.int 0, sentMessages := [] }
        (HttpResult.response 200 (some respEmpty))).state.timestamp =
      Json.int 1700000100 ∧
    (mainCycle okDeliver { timestamp := Json.int 0, sentMessages := [] }
        (HttpResult.response 200 (some respEmpty))).state.sentMessages = [] :=
  c5_empty_homeworks okDeliver { timestamp := Json.int 0, sentMessages := [] }
    (HttpResult.response 200 (some respEmpty))
    [("homeworks", Json.arr []), ("current_date", Json.int 1700000100)]
    (Json.int 1700000100) rfl rfl rfl

/-- C9: `send_message` returns normally even when the underlying
delivery raises, the caller then adds the rendered text to the sent set
anyway, and a text that is in the set is never attempted again. -/
theorem c9_send_failure (d : String → Except String Unit) (msg : String) (err : String)
    (hfail : d msg = Except.error err) :
    send_message d msg = Except.ok () ∧
    (∀ hw rest sent, parse_status hw = Except.ok msg → msg ∉ sent →
       msg ∈ (processHomeworks d (hw :: rest) sent).1 ∧
       msg ∈ (processHomeworks d (hw :: rest) sent).2.1) ∧
    (∀ hws sent, msg ∈ sent → msg ∉ (processHomeworks d hws sent).2.1) := by
  refine ⟨send_message_ok d msg, ?_, ?_⟩
  · intro hw rest sent hp hmem
    simp only [processHomeworks, hp, hmem, if_false, send_message_ok]
    constructor
    · rw [processHomeworks_sent_append d rest (sent ++ [msg])]
      exact List.mem_append_left _ (List.mem_append_right _ (List.mem_singleton.mpr rfl))
    · exact List.mem_cons_self _ _
  · intro hws sent hmem hcon
    exact processHomeworks_fresh d hws sent msg hcon hmem

/-- C9 witness: delivery of HW1's rendered text fails, yet the text
lands in the sent set, and once there it is never attempted again. -/
theorem c9_send_failure_case :
    send_message failDeliver msgHW1 = Except.ok () ∧
    msgHW1 ∈ (processHomeworks failDeliver [hwHW1] []).1 ∧
    msgHW1 ∉ (processHomeworks failDeliver [hwHW1] [msgHW1]).2.1 :=
  ⟨(c9_send_failure failDeliver msgHW1 ("network down") rfl).1,
   ((c9_send_failure failDeliver msgHW1 ("network down") rfl).2.1 hwHW1 [] [] rfl
      (by simp)).1,
   (c9_send_failure failDeliver msgHW1 ("network down") rfl).2.2 [hwHW1] [msgHW1]
     (List.mem_singleton.mpr rfl)⟩

/-- C10: when rendering fails partway through a validated batch, the
cycle keeps the notifications already attempted for the good prefix and
their marks in the sent set, appends exactly one error notification, and
does not advance the watermark — partial effects, not atomicity. -/
theorem c10_partial_batch (d : String → Except String Unit) (st : LoopState)
    (http : HttpResult) (resp : Json) (good : List Json) (bad : Json)
    (rest : List Json) (e : PyError)
    (h1 : get_api_answer http = Except.ok resp)
    (h3 : check_response resp = Except.ok (good ++ bad :: rest))
    (hgood : ∀ hw ∈ good, (parse_status hw).isOk = true)
    (hne : good ≠ [])
    (hbad : parse_status bad = Except.error e) :
    (mainCycle d st http).state.timestamp = st.timestamp ∧
    (mainCycle d st http).state.sentMessages =
      st.sentMessages ++ (processHomeworks d good st.sentMessages).2.1 ∧
    (mainCycle d st http).sends =
      (processHomeworks d good st.sentMessages).2.1 ++ [handlerMessage e] := by
  rcases check_response_ok_shape resp _ h3 with ⟨kvs, rfl, hlook, v, hv⟩
  have hcyc : mainCycle d st http =
      { state := { timestamp := st.timestamp,
                   sentMessages := (processHomeworks d good st.sentMessages).1 },
        sends := (processHomeworks d good st.sentMessages).2.1 ++ [handlerMessage e] } := by
    rw [mainCycle_valid d st http kvs (good ++ bad :: rest) h1 h3,
      processHomeworks_append_err d good bad rest e hbad st.sentMessages hgood]
  rw [hcyc]
  exact ⟨rfl, processHomeworks_sent_append d good st.sentMessages, rfl⟩

/-- C10 witness: a batch of HW1 (good) then HW2 with status weird (bad):
HW1's notification stays, one error notification follows, the watermark
stays put. -/
theorem c10_partial_batch_case :
    (mainCycle okDeliver { timestamp := Json.int 0, sentMessages := [] }
        (HttpResult.response 200 (some respMixed))).state.timestamp = Json.int 0 ∧
    (mainCycle okDeliver { timestamp := Json.int 0, sentMessages := [] }
        (HttpResult.response 200 (some respMixed))).sends =
      (processHomeworks okDeliver [hwHW1] []).2.1
        ++ [handlerMessage (PyError.valueError ("Неожиданный статус: weird"))] :=
  ⟨(c10_partial_batch okDeliver { timestamp := Json.int 0, sentMessages := [] }
      (HttpResult.response 200 (some respMixed)) respMixed [hwHW1] hwBad []
      (PyError.valueError ("Неожиданный статус: weird")) rfl rfl (by decide)
      (List.cons_ne_nil _ _) rfl).1,
   (c10_partial_batch okDeliver { timestamp := Json.int 0, sentMessages := [] }
      (HttpResult.response 200 (some respMixed)) respMixed [hwHW1] hwBad []
      (PyError.valueError ("Неожиданный статус: weird")) rfl rfl (by decide)
      (List.cons_ne_nil _ _) rfl).2.2⟩
